import Mathlib

/-!
Shallow embedding of the trivia backend: the data model, the helpers of
`backend/utils.py` (`format_categories`, `get_paginated_questions`) and the
request handlers of `backend/flaskr/__init__.py` (`get_questions`,
`create_question`, `search_questions`, `play_random_quiz_question`),
together with theorems settling the specification's claims.

The relational store is modelled as an explicit `Store` value holding the
two tables; each handler takes the store and returns its response paired
with the store after the request.  Randomness in the quiz endpoint is
modelled by an oracle stream of draws plus a fuel bound on the retry loop.
-/

/-- Modelled from the spec: the `Category` record of `models.py` (not under
`src/`): id (unique) and type (display string). -/
structure Category where
  id : Nat
  type : String
deriving DecidableEq, Repr

/-- Modelled from the spec: the `Question` record of `models.py` (not under
`src/`): id, question text, answer text, category reference, difficulty. -/
structure Question where
  id : Nat
  question : String
  answer : String
  category : Nat
  difficulty : Nat
deriving DecidableEq, Repr

/-- Modelled from the spec: the formatted question representation
`\x7bid, question, answer, category, difficulty\x7d` that `Question.format()`
returns. -/
structure FormattedQuestion where
  id : Nat
  question : String
  answer : String
  category : Nat
  difficulty : Nat
deriving DecidableEq, Repr

/-- Modelled from the spec: `Question.format()` of `models.py`. -/
def Question.format (q : Question) : FormattedQuestion :=
  { id := q.id, question := q.question, answer := q.answer,
    category := q.category, difficulty := q.difficulty }

/-- Python dict assignment `d[k] = v`: overwrite the value when the key is
present, append the new pair otherwise. -/
def dictInsert (d : List (Nat × String)) (k : Nat) (v : String) :
    List (Nat × String) :=
  if d.any (fun p => p.1 == k) then
    d.map (fun p => if p.1 == k then (k, v) else p)
  else
    d ++ [(k, v)]

/-- `utils.format_categories`: fold the records into a dict mapping
`category.id` to `category.type`. -/
def format_categories (categories : List Category) : List (Nat × String) :=
  categories.foldl (fun acc c => dictInsert acc c.id c.type) []

/-- The request data the embedded handlers consume: the `page` query
parameter (`none` when absent or not an integer, in which case Flask's
`request.args.get` falls back to the default). -/
structure Request where
  page : Option Int
deriving DecidableEq, Repr

/-- Source line `request.args.get('page', 1, type=int)`. -/
def Request.pageNumber (req : Request) : Int :=
  req.page.getD 1

/-- Python list slicing `l[start:stop]` (step 1): negative indices count
from the end, then both bounds are clamped to `[0, len]`. -/
def pySlice {α : Type} (l : List α) (start stop : Int) : List α :=
  let n : Int := l.length
  let s : Int := if start < 0 then max (n + start) 0 else min start n
  let e : Int := if stop < 0 then max (n + stop) 0 else min stop n
  (l.take e.toNat).drop s.toNat

/-- `utils.get_paginated_questions`: compute `start = (page-1)*per_page`,
`stop = start + per_page`, format every question, and return the slice
`questions[start:stop]`.  (`stop` stands for the source's `end`, a keyword
here.) -/
def get_paginated_questions (req : Request) (questions : List Question)
    (num_of_questions : Nat) : List FormattedQuestion :=
  let page := req.pageNumber
  let start : Int := (page - 1) * num_of_questions
  let stop : Int := start + num_of_questions
  let formatted := questions.map Question.format
  pySlice formatted start stop

/-! Helper lemmas about `pySlice`. -/

theorem pySlice_eq_drop_take {α : Type} (l : List α) (a b : Nat) (s e : Int)
    (hs : s = (a : Int)) (he : e = (a : Int) + (b : Int)) :
    pySlice l s e = (l.drop a).take b := by
  subst hs
  subst he
  unfold pySlice
  have ha : ¬((a : Int) < 0) := by omega
  have hab : ¬((a : Int) + (b : Int) < 0) := by omega
  simp only [if_neg ha, if_neg hab]
  have hsn : (min (a : Int) (l.length : Int)).toNat = min a l.length := by omega
  have hen : (min ((a : Int) + (b : Int)) (l.length : Int)).toNat
      = min (a + b) l.length := by omega
  rw [hsn, hen]
  rcases Nat.le_total l.length a with h | h
  · rw [List.drop_eq_nil_of_le h, List.take_nil]
    apply List.drop_eq_nil_of_le
    rw [List.length_take]
    omega
  · rw [Nat.min_eq_left h, List.drop_take]
    rcases Nat.le_total l.length a with h2 | h2
    · rw [List.drop_eq_nil_of_le h2, List.take_nil, List.take_nil]
    · rw [List.take_eq_take]
      rw [List.length_drop]
      omega

theorem pySlice_empty_of_stop_eq_zero {α : Type} (l : List α) (s e : Int)
    (he : e = 0) : pySlice l s e = [] := by
  subst he
  unfold pySlice
  have h0 : ¬((0 : Int) < 0) := by omega
  simp only [if_neg h0]
  have : (min (0 : Int) (l.length : Int)).toNat = 0 := by omega
  rw [this, List.take_zero, List.drop_nil]

/-! The store and the response envelope. -/

/-- The persistent state the relational store owns: the two tables. -/
structure Store where
  questions : List Question
  categories : List Category
deriving DecidableEq, Repr

/-- A handler outcome: an aborted request (`err` carries the status code) or
a success response with its status code and JSON body. -/
inductive HResp (α : Type) where
  | err (code : Nat)
  | ok (code : Nat) (body : α)
deriving DecidableEq, Repr

/-- Insert a question into a list sorted by ascending id (helper for
`orderById`). -/
def insertById (q : Question) : List Question → List Question
  | [] => [q]
  | x :: xs => if q.id ≤ x.id then q :: x :: xs else x :: insertById q xs

/-- Modelled from the spec: `Question.query.order_by(Question.id).all()` of
the store (an insertion sort on ids). -/
def orderById (l : List Question) : List Question :=
  l.foldr insertById []

/-- The success body of `GET /questions`. -/
structure QuestionsPayload where
  total_questions : Nat
  categories : List (Nat × String)
  questions : List FormattedQuestion
deriving DecidableEq, Repr

/-- Handler of `GET /questions`: fetch every question ordered by id,
paginate, abort 404 on an empty page, else answer 200 with the page, the
total count and the formatted categories. -/
def get_questions (req : Request) (st : Store) :
    HResp QuestionsPayload × Store :=
  let questions := orderById st.questions
  let number_of_questions := questions.length
  let current_questions := get_paginated_questions req questions 10
  if current_questions.length = 0 then
    (.err 404, st)
  else
    (.ok 200 { total_questions := number_of_questions,
               categories := format_categories st.categories,
               questions := current_questions }, st)

/-- A JSON value as the create-question handler can receive one for a
field: a string, a number, or null. -/
inductive JVal where
  | str (s : String)
  | num (n : Int)
  | null
deriving DecidableEq, Repr

/-- The body of `POST /questions`: each field is `none` when the key is
absent from the request JSON. -/
structure CreateData where
  question : Option JVal
  answer : Option JVal
  difficulty : Option JVal
  category : Option JVal
deriving DecidableEq, Repr

/-- Source line `'question' in data and 'answer' in data and 'difficulty'
in data and 'category' in data`. -/
def allFieldsPresent (d : CreateData) : Bool :=
  d.question.isSome && d.answer.isSome && d.difficulty.isSome
    && d.category.isSome

/-- Source line `question == '' or answer == '' or difficulty == '' or
category == ''` (Python equality with the empty string holds only for a
string value). -/
def someFieldEmpty (d : CreateData) : Bool :=
  (d.question == some (JVal.str "")) || (d.answer == some (JVal.str ""))
    || (d.difficulty == some (JVal.str ""))
    || (d.category == some (JVal.str ""))

/-- The string content a JSON field value contributes to the stored
question text. -/
def JVal.asString : JVal → String
  | .str s => s
  | .num n => toString n
  | .null => ""

/-- The numeric content a JSON field value contributes to the stored
category or difficulty. -/
def JVal.asNat : JVal → Nat
  | .num n => n.toNat
  | _ => 0

/-- Handler of `POST /questions`: abort 422 when a field is missing, when a
field is the empty string, or when the insert faults (`insertFaults` models
the store raising inside the `try`); otherwise insert the new question
(given the store-assigned `newId`) and answer 201. -/
def create_question (data : CreateData) (insertFaults : Bool) (newId : Nat)
    (st : Store) : HResp String × Store :=
  if !allFieldsPresent data then
    (.err 422, st)
  else if someFieldEmpty data then
    (.err 422, st)
  else if insertFaults then
    (.err 422, st)
  else
    let q : Question :=
      { id := newId,
        question := ((data.question).getD .null).asString,
        answer := ((data.answer).getD .null).asString,
        category := ((data.category).getD .null).asNat,
        difficulty := ((data.difficulty).getD .null).asNat }
    (.ok 201 "Question is created successfully",
      { st with questions := st.questions ++ [q] })

/-- Modelled from the spec: the SQL `ilike` filter
`Question.question.ilike(f-string percent term percent)`, a
case-insensitive substring match. -/
def ilikeContains (text pat : String) : Bool :=
  decide ((pat.data.map Char.toLower) <:+: (text.data.map Char.toLower))

/-- The questions whose text matches the search term, in store order
(source line `Question.query.filter(Question.question.ilike(...)).all()`). -/
def searchMatches (term : String) (st : Store) : List Question :=
  st.questions.filter (fun q => ilikeContains q.question term)

/-- The success body of `POST /questions/search`. -/
structure SearchPayload where
  questions : List FormattedQuestion
  total_questions : Nat
deriving DecidableEq, Repr

/-- Handler of `POST /questions/search`: abort 422 on an empty search term;
abort 404 when no question matches (the 404 raised inside the `try` is
re-raised as 404 by the bare `except`); otherwise answer 200 with the
paginated matches and the size of the whole questions table.  A missing
`searchTerm` key yields Python `None`, which the f-string renders as the
literal text `None`. -/
def search_questions (req : Request) (searchTerm : Option String)
    (st : Store) : HResp SearchPayload × Store :=
  if searchTerm == some "" then
    (.err 422, st)
  else
    let term := match searchTerm with
      | some s => s
      | none => "None"
    let questions := searchMatches term st
    if questions.length = 0 then
      (.err 404, st)
    else
      (.ok 200 { questions := get_paginated_questions req questions 10,
                 total_questions := st.questions.length }, st)

/-! The quiz endpoint. -/

/-- The pool the quiz draws from: every question when the requested
category id is 0, else the questions of that category. -/
def quizPool (st : Store) (catId : Nat) : List Question :=
  if catId = 0 then st.questions
  else st.questions.filter (fun q => q.category == catId)

/-- The rejection-sampling loop of `play_random_quiz_question`: at step `k`
draw the index `draws k mod pool.length` (the oracle `draws` stands for
`random.randint`); return the drawn question unless its id is in
`previous`, in which case draw again.  `fuel` bounds the number of draws;
`none` with a nonempty pool means the loop was still running when the fuel
ran out. -/
def quizLoop (pool : List Question) (previous : List Nat)
    (draws : Nat → Nat) : Nat → Nat → Option Question
  | _, 0 => none
  | k, fuel + 1 =>
    match pool[draws k % pool.length]? with
    | none => none
    | some q =>
      if q.id ∈ previous then quizLoop pool previous draws (k + 1) fuel
      else some q

/-- Outcome of the quiz handler: an aborted request, an uncaught exception
(`random.randint(0, -1)` on an empty pool raises ValueError), loop fuel
exhaustion, or a 200 response with one question. -/
inductive QuizResult where
  | err (code : Nat)
  | fault
  | timeout
  | ok (code : Nat) (q : FormattedQuestion)
deriving DecidableEq, Repr

/-- Handler of `POST /quizzes`: abort 400 when either field is absent;
select the pool from `quiz_category`; on an empty pool the random draw
raises (`fault`); otherwise run the rejection loop and answer 200 with the
formatted question it returns. -/
def play_random_quiz_question (previous_questions : Option (List Nat))
    (quiz_category : Option Nat) (draws : Nat → Nat) (fuel : Nat)
    (st : Store) : QuizResult × Store :=
  match previous_questions, quiz_category with
  | none, _ => (.err 400, st)
  | some _, none => (.err 400, st)
  | some prev, some catId =>
    let questions := quizPool st catId
    if questions.length = 0 then
      (.fault, st)
    else
      match quizLoop questions prev draws 0 fuel with
      | some q => (.ok 200 q.format, st)
      | none => (.timeout, st)

/-! Pagination: the page a request gets. -/

theorem get_paginated_eq_drop_take (N : Int) (hN : 1 ≤ N) (l : List Question) :
    get_paginated_questions { page := some N } l 10
      = ((l.map Question.format).drop ((N - 1).toNat * 10)).take 10 := by
  simp only [get_paginated_questions, Request.pageNumber, Option.getD]
  exact pySlice_eq_drop_take _ _ _ _ _ (by omega) (by omega)

/-- C3: for page size 10 and every page number N ≥ 1, pagination returns at
most 10 items, item i of the page is item (N-1)*10+i of the formatted
unpaginated list whenever that index exists, and a page number beyond the
data length yields the empty sequence. -/
theorem pagination_page_contract (N : Int) (hN : 1 ≤ N) (l : List Question) :
    (get_paginated_questions { page := some N } l 10).length ≤ 10 ∧
    (∀ i : Nat, i < 10 → (N - 1).toNat * 10 + i < l.length →
      (get_paginated_questions { page := some N } l 10)[i]?
        = (l.map Question.format)[(N - 1).toNat * 10 + i]?) ∧
    (l.length ≤ (N - 1).toNat * 10 →
      get_paginated_questions { page := some N } l 10 = []) := by
  rw [get_paginated_eq_drop_take N hN l]
  refine ⟨List.length_take_le _ _, ?_, ?_⟩
  · intro i hi _
    rw [List.getElem?_take_of_lt hi, List.getElem?_drop]
  · intro hle
    rw [List.drop_eq_nil_of_le (by simpa using hle), List.take_nil]

/-- A sample table of fifteen questions, for evaluating the theorems at a
concrete input. -/
def sampleQuestions : List Question :=
  (List.range 15).map fun i =>
    { id := i, question := toString i, answer := "a", category := 1,
      difficulty := 1 }

theorem pagination_page_contract_witness :
    (1 : Int) ≤ 2 ∧
    ((get_paginated_questions { page := some 2 } sampleQuestions 10).length ≤ 10 ∧
    (∀ i : Nat, i < 10 → ((2 : Int) - 1).toNat * 10 + i < sampleQuestions.length →
      (get_paginated_questions { page := some 2 } sampleQuestions 10)[i]?
        = (sampleQuestions.map Question.format)[((2 : Int) - 1).toNat * 10 + i]?) ∧
    (sampleQuestions.length ≤ ((2 : Int) - 1).toNat * 10 →
      get_paginated_questions { page := some 2 } sampleQuestions 10 = [])) :=
  ⟨by norm_num, pagination_page_contract 2 (by norm_num) sampleQuestions⟩

/-- C10: with page number 0 the computed slice is `questions[-10:0]`, which
is empty for every input list, so `GET /questions?page=0` always takes the
empty-page branch and aborts 404. -/
theorem page_zero_contract (l : List Question) (st : Store) :
    get_paginated_questions { page := some 0 } l 10 = [] ∧
    (get_questions { page := some 0 } st).1 = HResp.err 404 := by
  have h : ∀ m : List Question,
      get_paginated_questions { page := some 0 } m 10 = [] := by
    intro m
    simp only [get_paginated_questions, Request.pageNumber, Option.getD]
    exact pySlice_empty_of_stop_eq_zero _ _ _ (by omega)
  refine ⟨h l, ?_⟩
  simp [get_questions, h (orderById st.questions)]

/-! Create question: status codes. -/

/-- C4: a create request answers 201 exactly when all four fields are
present, none is the empty string, and the insert does not fault; in every
other case it aborts 422. -/
theorem create_question_status (data : CreateData) (insertFaults : Bool)
    (newId : Nat) (st : Store) :
    (create_question data insertFaults newId st).1 =
      if allFieldsPresent data && !someFieldEmpty data && !insertFaults then
        HResp.ok 201 "Question is created successfully"
      else HResp.err 422 := by
  unfold create_question
  cases hp : allFieldsPresent data <;> cases he : someFieldEmpty data <;>
    cases insertFaults <;> simp

/-! The quiz loop. -/

theorem quizLoop_all_seen (pool : List Question) (prev : List Nat)
    (draws : Nat → Nat) (hall : ∀ q ∈ pool, q.id ∈ prev) :
    ∀ (fuel k : Nat), quizLoop pool prev draws k fuel = none := by
  intro fuel
  induction fuel with
  | zero => intro k; rfl
  | succ n ih =>
    intro k
    unfold quizLoop
    cases hq : pool[draws k % pool.length]? with
    | none => rfl
    | some q =>
      have hmem : q ∈ pool := by
        obtain ⟨hlt, hget⟩ := List.getElem?_eq_some_iff.mp hq
        exact hget ▸ List.getElem_mem hlt
      simp [hall q hmem, ih]

theorem quizLoop_finds (pool : List Question) (prev : List Nat)
    (draws : Nat → Nat) :
    ∀ (n k : Nat) (q : Question),
      pool[draws (k + n) % pool.length]? = some q → q.id ∉ prev →
      ∃ q', quizLoop pool prev draws k (n + 1) = some q' ∧
        q' ∈ pool ∧ q'.id ∉ prev := by
  intro n
  induction n with
  | zero =>
    intro k q hq hns
    rw [Nat.add_zero] at hq
    unfold quizLoop
    rw [hq]
    have hmem : q ∈ pool := by
      obtain ⟨hlt, hget⟩ := List.getElem?_eq_some_iff.mp hq
      exact hget ▸ List.getElem_mem hlt
    simp only [if_neg hns]
    exact ⟨q, rfl, hmem, hns⟩
  | succ n ih =>
    intro k q hq hns
    have hlen : 0 < pool.length := by
      obtain ⟨hlt, _⟩ := List.getElem?_eq_some_iff.mp hq
      omega
    have hidx : draws k % pool.length < pool.length := Nat.mod_lt _ hlen
    unfold quizLoop
    rw [List.getElem?_eq_getElem hidx]
    by_cases hmem : pool[draws k % pool.length].id ∈ prev
    · simp only [if_pos hmem]
      apply ih (k + 1) q _ hns
      rw [show k + 1 + n = k + (n + 1) by omega]
      exact hq
    · simp only [if_neg hmem]
      exact ⟨pool[draws k % pool.length], rfl, List.getElem_mem hidx, hmem⟩

/-- C1 (as the code behaves): when the pool is nonempty and every question
of the pool was already served, the rejection loop never returns: for every
fuel bound the handler is still looping, so the request produces no
response at all instead of the "no candidates" outcome the spec requires. -/
theorem quiz_pool_all_seen_no_answer (st : Store) (prev : List Nat)
    (catId : Nat) (draws : Nat → Nat) (fuel : Nat)
    (hne : quizPool st catId ≠ [])
    (hall : ∀ q ∈ quizPool st catId, q.id ∈ prev) :
    (play_random_quiz_question (some prev) (some catId) draws fuel st).1
      = QuizResult.timeout := by
  unfold play_random_quiz_question
  have hlen : ¬(quizPool st catId).length = 0 := by
    simpa [List.length_eq_zero] using hne
  simp only [if_neg hlen, quizLoop_all_seen (quizPool st catId) prev draws hall fuel 0]

/-- The sample question with id 1 in category 1. -/
def questionOne : Question :=
  { id := 1, question := "q", answer := "a", category := 1, difficulty := 1 }

/-- A one-question store holding `questionOne`. -/
def storeOne : Store :=
  { questions := [questionOne], categories := [{ id := 1, type := "Science" }] }

theorem quiz_pool_all_seen_no_answer_witness :
    (play_random_quiz_question (some [1]) (some 0) (fun _ => 0) 100
      storeOne).1 = QuizResult.timeout :=
  quiz_pool_all_seen_no_answer storeOne [1] 0 (fun _ => 0) 100
    (by decide) (by decide)

/-- C2: whenever some draw of the oracle hits a question of the pool that
is not among the previously served ids, the handler terminates for a
sufficient fuel bound and answers 200 with one question of the pool whose
id is not in the previously served set. -/
theorem quiz_unseen_returns_valid (st : Store) (prev : List Nat)
    (catId : Nat) (draws : Nat → Nat) (k : Nat) (q : Question)
    (hq : (quizPool st catId)[draws k % (quizPool st catId).length]? = some q)
    (hns : q.id ∉ prev) :
    ∃ fuel q',
      (play_random_quiz_question (some prev) (some catId) draws fuel st).1
        = QuizResult.ok 200 q'.format ∧
      q' ∈ quizPool st catId ∧ q'.id ∉ prev := by
  obtain ⟨q', hloop, hmem, hns'⟩ :=
    quizLoop_finds (quizPool st catId) prev draws k 0 q
      (by rw [Nat.zero_add]; exact hq) hns
  refine ⟨k + 1, q', ?_, hmem, hns'⟩
  unfold play_random_quiz_question
  have hlen : ¬(quizPool st catId).length = 0 := by
    obtain ⟨hlt, _⟩ := List.getElem?_eq_some_iff.mp hq
    omega
  simp only [if_neg hlen, hloop]

theorem quiz_unseen_returns_valid_witness :
    ∃ fuel q',
      (play_random_quiz_question (some []) (some 0) (fun _ => 0) fuel
        storeOne).1 = QuizResult.ok 200 q'.format ∧
      q' ∈ quizPool storeOne 0 ∧ q'.id ∉ ([] : List Nat) :=
  quiz_unseen_returns_valid storeOne [] 0 (fun _ => 0) 0
    { id := 1, question := "q", answer := "a", category := 1, difficulty := 1 }
    (by decide) (by decide)

/-- C9: with both fields present but an empty pool, the random draw
`random.randint(0, -1)` raises, so the handler faults and never answers
200 with a question. -/
theorem quiz_empty_pool_faults (st : Store) (prev : List Nat) (catId : Nat)
    (draws : Nat → Nat) (fuel : Nat) (hempty : quizPool st catId = []) :
    (play_random_quiz_question (some prev) (some catId) draws fuel st).1
      = QuizResult.fault ∧
    ∀ q : FormattedQuestion,
      (play_random_quiz_question (some prev) (some catId) draws fuel st).1
        ≠ QuizResult.ok 200 q := by
  unfold play_random_quiz_question
  simp [hempty]

theorem quiz_empty_pool_faults_witness :
    (play_random_quiz_question (some []) (some 7) (fun _ => 0) 5
      storeOne).1 = QuizResult.fault ∧
    ∀ q : FormattedQuestion,
      (play_random_quiz_question (some []) (some 7) (fun _ => 0) 5
        storeOne).1 ≠ QuizResult.ok 200 q :=
  quiz_empty_pool_faults storeOne [] 7 (fun _ => 0) 5 (by decide)

/-! Read-only handlers. -/

/-- C7: the list-questions, search-questions and quiz handlers leave the
store exactly as it was, for every request. -/
theorem read_only_handlers (req : Request) (term : Option String)
    (prev : Option (List Nat)) (cat : Option Nat) (draws : Nat → Nat)
    (fuel : Nat) (st : Store) :
    (get_questions req st).2 = st ∧
    (search_questions req term st).2 = st ∧
    (play_random_quiz_question prev cat draws fuel st).2 = st := by
  refine ⟨?_, ?_, ?_⟩
  · unfold get_questions
    dsimp only
    split <;> rfl
  · unfold search_questions
    split
    · rfl
    · dsimp only
      split <;> rfl
  · unfold play_random_quiz_question
    rcases prev with _ | p <;> rcases cat with _ | c
    · rfl
    · rfl
    · rfl
    · dsimp only
      split
      · rfl
      · split <;> rfl

/-! Search: status codes and the total count. -/

/-- C5: an empty search term aborts 422; a non-empty term with no
case-insensitive substring match aborts 404; otherwise the handler answers
200 with the paginated matches and the total count. -/
theorem search_questions_status (req : Request) (searchTerm : Option String)
    (st : Store) :
    (searchTerm = some "" →
      (search_questions req searchTerm st).1 = HResp.err 422) ∧
    (∀ t : String, searchTerm = some t → t ≠ "" → searchMatches t st = [] →
      (search_questions req searchTerm st).1 = HResp.err 404) ∧
    (∀ t : String, searchTerm = some t → t ≠ "" → searchMatches t st ≠ [] →
      (search_questions req searchTerm st).1 =
        HResp.ok 200
          { questions := get_paginated_questions req (searchMatches t st) 10,
            total_questions := st.questions.length }) := by
  refine ⟨?_, ?_, ?_⟩
  · rintro rfl
    simp [search_questions]
  · rintro t rfl hne hm
    simp [search_questions, hne, hm]
  · rintro t rfl hne hm
    have hlen : ¬(searchMatches t st).length = 0 := by
      simpa [List.length_eq_zero] using hm
    simp [search_questions, hne, hlen]

/-- C8: every successful search response reports the size of the whole
questions table in `total_questions`, whatever the term matched. -/
theorem search_total_is_store_count (req : Request) (term : Option String)
    (st : Store) (code : Nat) (pl : SearchPayload)
    (h : (search_questions req term st).1 = HResp.ok code pl) :
    pl.total_questions = st.questions.length := by
  unfold search_questions at h
  split at h
  · simp at h
  · dsimp only at h
    split at h
    · simp at h
    · injection h with hc hb
      rw [← hb]

/-- The sample question whose text is the word hello. -/
def questionHello : Question :=
  { id := 1, question := "hello", answer := "a", category := 1,
    difficulty := 1 }

/-- The sample question whose text is the word world. -/
def questionWorld : Question :=
  { id := 2, question := "world", answer := "a", category := 1,
    difficulty := 1 }

/-- A two-question store in which exactly one question matches the search
term used by the witnesses. -/
def storeTwo : Store :=
  { questions := [questionHello, questionWorld], categories := [] }

theorem search_total_is_store_count_witness :
    ({ questions := [questionHello.format], total_questions := 2 } :
        SearchPayload).total_questions = storeTwo.questions.length :=
  search_total_is_store_count { page := some 1 } (some "ell") storeTwo 200
    { questions := [questionHello.format], total_questions := 2 } (by decide)

/-! The category formatter. -/

theorem dictInsert_not_mem (acc : List (Nat × String)) (k : Nat) (v : String)
    (h : ∀ p ∈ acc, p.1 ≠ k) : dictInsert acc k v = acc ++ [(k, v)] := by
  unfold dictInsert
  rw [if_neg]
  simp only [List.any_eq_true, beq_iff_eq, not_exists, not_and]
  intro p hp
  exact h p hp

theorem foldl_dictInsert_disjoint (cats : List Category) :
    ∀ acc : List (Nat × String),
      (∀ c ∈ cats, ∀ p ∈ acc, p.1 ≠ c.id) →
      (cats.map Category.id).Nodup →
      cats.foldl (fun acc c => dictInsert acc c.id c.type) acc
        = acc ++ cats.map (fun c => (c.id, c.type)) := by
  induction cats with
  | nil =>
    intro acc _ _
    simp
  | cons c cs ih =>
    intro acc hdisj hnd
    have hnd2 : (∀ x ∈ cs, ¬x.id = c.id) ∧ (cs.map Category.id).Nodup := by
      simpa using hnd
    simp only [List.foldl_cons, List.map_cons]
    rw [dictInsert_not_mem acc c.id c.type
      (fun p hp => hdisj c (List.mem_cons_self c cs) p hp)]
    rw [ih (acc ++ [(c.id, c.type)]) ?_ hnd2.2]
    · simp
    · intro c' hc' p hp
      rcases List.mem_append.mp hp with hin | hin
      · exact hdisj c' (List.mem_cons_of_mem _ hc') p hin
      · have hpc : p = (c.id, c.type) := by simpa using hin
        subst hpc
        intro heq
        exact hnd2.1 c' hc' heq.symm

theorem format_categories_eq_map (cats : List Category)
    (h : (cats.map Category.id).Nodup) :
    format_categories cats = cats.map (fun c => (c.id, c.type)) := by
  have := foldl_dictInsert_disjoint cats [] (by simp) h
  simpa [format_categories] using this

theorem lookup_map_pair (l : List Category)
    (hl : (l.map Category.id).Nodup) (k : Nat) (t : String) :
    (l.map fun c => (c.id, c.type)).lookup k = some t ↔
      ∃ c ∈ l, c.id = k ∧ c.type = t := by
  induction l with
  | nil => simp
  | cons c cs ih =>
    have hnd2 : (∀ x ∈ cs, ¬x.id = c.id) ∧ (cs.map Category.id).Nodup := by
      simpa using hl
    simp only [List.map_cons, List.lookup_cons]
    by_cases hk : k = c.id
    · subst hk
      simp
      intro x hx hid _
      exact absurd hid (hnd2.1 x hx)
    · have hbeq : (k == c.id) = false := by
        simpa using hk
      simp only [hbeq]
      rw [ih hnd2.2]
      constructor
      · rintro ⟨c', hc', rfl, rfl⟩
        exact ⟨c', List.mem_cons_of_mem _ hc', rfl, rfl⟩
      · rintro ⟨c', hc', rfl, rfl⟩
        rcases List.mem_cons.mp hc' with rfl | hmem
        · exact absurd rfl hk
        · exact ⟨c', hmem, rfl, rfl⟩

theorem lookup_format_categories (l : List Category)
    (hl : (l.map Category.id).Nodup) (k : Nat) (t : String) :
    (format_categories l).lookup k = some t ↔
      ∃ c ∈ l, c.id = k ∧ c.type = t := by
  rw [format_categories_eq_map l hl]
  exact lookup_map_pair l hl k t

/-- C6: with pairwise-unique ids the category formatter yields one entry
per input record: its size equals the input length, it maps each record's
id to that record's type, and as a mapping it does not depend on the input
order. -/
theorem format_categories_unique_ids (cats : List Category)
    (h : (cats.map Category.id).Nodup) :
    (format_categories cats).length = cats.length ∧
    (∀ c ∈ cats, (format_categories cats).lookup c.id = some c.type) ∧
    (∀ cats2 : List Category, cats2.Perm cats →
      ∀ k, (format_categories cats2).lookup k
        = (format_categories cats).lookup k) := by
  refine ⟨?_, ?_, ?_⟩
  · rw [format_categories_eq_map cats h, List.length_map]
  · intro c hc
    rw [lookup_format_categories cats h]
    exact ⟨c, hc, rfl, rfl⟩
  · intro cats2 hp k
    have h2 : (cats2.map Category.id).Nodup :=
      ((hp.map Category.id).nodup_iff).mpr h
    rcases h1 : (format_categories cats2).lookup k with _ | t
    · rcases h3 : (format_categories cats).lookup k with _ | t'
      · rfl
      · obtain ⟨c, hc, hid, htyp⟩ :=
          (lookup_format_categories cats h k t').mp h3
        have hcontra : (format_categories cats2).lookup k = some t' :=
          (lookup_format_categories cats2 h2 k t').mpr
            ⟨c, hp.mem_iff.mpr hc, hid, htyp⟩
        rw [h1] at hcontra
        simp at hcontra
    · obtain ⟨c, hc, hid, htyp⟩ :=
        (lookup_format_categories cats2 h2 k t).mp h1
      exact ((lookup_format_categories cats h k t).mpr
        ⟨c, hp.subset hc, hid, htyp⟩).symm

/-- A sample pair of categories with distinct ids. -/
def sampleCategories : List Category :=
  [{ id := 1, type := "Science" }, { id := 2, type := "Art" }]

theorem format_categories_unique_ids_witness :
    (sampleCategories.map Category.id).Nodup ∧
    ((format_categories sampleCategories).length = sampleCategories.length ∧
    (∀ c ∈ sampleCategories,
      (format_categories sampleCategories).lookup c.id = some c.type) ∧
    (∀ cats2 : List Category, cats2.Perm sampleCategories →
      ∀ k, (format_categories cats2).lookup k
        = (format_categories sampleCategories).lookup k)) :=
  ⟨by decide, format_categories_unique_ids sampleCategories (by decide)⟩
